import Mathlib

/-!
Verification development for the jud-attendance-app face-detection demo.

The repository contains two React camera components built on TensorFlow.js
blazeface:

* `src/components/camera.tsx` — the primary variant: a detection loop driven by
  `runDetection` (which awaits `detectFaces()` and then reschedules itself with
  `setTimeout`), an overlay renderer drawing bounding rectangles and landmark
  circles scaled per axis, and a results panel listing six named landmarks.

* `src/unnamed/part_001` — the cropped-face variant: same scaffold plus a
  `cropFace` secondary pipeline and a second (face-mesh) landmark model; its
  `runDetection` does NOT await `detectFaces()` before scheduling the next
  cycle.

We model numeric values as rationals (the coordinate arithmetic in the source
is exact linear arithmetic on JS numbers), React state records as Lean
structures, and the cooperative browser event loop (setTimeout /
requestAnimationFrame callbacks, promise resolution of the model calls)
as a small-step relation on the component state: each event is one atomic run
of JS code between two suspension points.  Debug strings built via template
interpolation are abstracted into an inductive carrying the same data.
-/

/-- One face detection result, from `interface FaceDetection`
(camera.tsx lines 9-14 and part_001 lines 10-15): top-left and bottom-right
corners in native video coordinates, a probability array and landmark points. -/
structure FaceDetection where
  topLeft : ℚ × ℚ
  bottomRight : ℚ × ℚ
  probability : List ℚ
  landmarks : List (ℚ × ℚ)
deriving DecidableEq

/-- A shape drawn on the overlay canvas: `ctx.strokeRect` produces a rectangle,
`ctx.arc`/`ctx.fill` produces a filled circle (radius 3 in the source). -/
inductive Shape where
  | rect (x y w h : ℚ)
  | circle (cx cy r : ℚ)
deriving DecidableEq

/-- A refined face-mesh result of the secondary landmark model
(`faceLandmarksDetection.Face`); its internal layout is opaque to this
repository, we only record that it carries keypoints. -/
structure MeshFace where
  keypoints : List (ℚ × ℚ)
deriving DecidableEq

/-- The crop region computed by `cropFace` (part_001 lines 94-114): the
offscreen canvas dimensions (`tempCanvas.width/height`) and the source-frame
coordinates passed to `drawImage`.  The resulting raster is a pure function of
the video frame and this region, so we identify the cropped image with it. -/
structure CropSpec where
  canvasW : ℚ
  canvasH : ℚ
  srcX : ℚ
  srcY : ℚ
deriving DecidableEq

/-- One entry of the cropped-face list (`interface CroppedFace`,
part_001 lines 17-20): the cropped image and the secondary model's result. -/
structure CroppedFace where
  image : CropSpec
  landmarks : List MeshFace
deriving DecidableEq

/-- Abstraction of the `debugInfo` string state: each constructor stands for
one of the template strings the source can store, carrying the interpolated
data (the renderings are pairwise distinct, so this is faithful). -/
inductive DebugMsg where
  | empty
  | frameInfo (frame : Nat) (preds : List FaceDetection)
  | detectError (err : String)
  | modelsLoaded
  | modelLoadError (err : String)
  | detected (count : Nat) (preds : List FaceDetection)
deriving DecidableEq

/-- One labeled entry of the results panel (camera.tsx lines 213-226):
probability, corners, and the six landmarks in the order the JSX reads them. -/
structure PanelEntry where
  prob : ℚ
  topLeft : ℚ × ℚ
  bottomRight : ℚ × ℚ
  rightEye : ℚ × ℚ
  leftEye : ℚ × ℚ
  nose : ℚ × ℚ
  mouth : ℚ × ℚ
  rightEar : ℚ × ℚ
  leftEar : ℚ × ℚ
deriving DecidableEq

namespace Camera

/-- React state and event-loop bookkeeping of `CameraComponent`
(camera.tsx).  The first block mirrors the `useState` hooks and refs;
`dispW/dispH` are `video.clientWidth/clientHeight`, `natW/natH` are
`video.videoWidth/videoHeight`.  The second block models the browser event
loop: `pendingT` counts scheduled-and-unfired `setTimeout(runDetection)`
callbacks, `flightT` counts `detectFaces` invocations (awaited by
`runDetection`) suspended at `model.estimateFaces`, `rafP` counts scheduled
`requestAnimationFrame(detectFaces)` callbacks, `flightR` counts
rAF-invoked `detectFaces` suspended at `estimateFaces`.  `inferences` counts
calls to `estimateFaces`, `renders` counts completed overlay draw phases,
`canvas` is the overlay content after the last draw. -/
structure CState where
  isStreaming : Bool
  error : Option String
  model : Option Unit
  isLoading : Bool
  predictions : List FaceDetection
  debugInfo : DebugMsg
  frameCount : Nat
  srcObject : Bool
  tracks : List Bool
  dispW : ℚ
  dispH : ℚ
  natW : ℚ
  natH : ℚ
  pendingT : Nat
  flightT : Nat
  rafP : Nat
  flightR : Nat
  inferences : Nat
  renders : Nat
  canvas : List Shape
deriving DecidableEq

/-- `stopCamera` (camera.tsx lines 44-53): guarded on
`videoRef.current && videoRef.current.srcObject`; stops every media track,
detaches the stream, and clears streaming flag, predictions and debug text.
When no stream is attached it does nothing. -/
def stopCamera (s : CState) : CState :=
  if s.srcObject then
    { s with tracks := s.tracks.map (fun _ => false)
           , srcObject := false
           , isStreaming := false
           , predictions := []
           , debugInfo := .empty }
  else s

/-- `loadModel` (camera.tsx lines 55-66): `outcome = some m` models
`blazeface.load()` resolving with a model, `none` models any throw inside the
`try` (including `tf.setBackend`).  On success the model is stored, on failure
the error message is set; both arms clear the loading flag.  The catch arm
leaves `model` untouched. -/
def loadModel (outcome : Option Unit) (s : CState) : CState :=
  match outcome with
  | some m => { s with model := some m, isLoading := false }
  | none =>
      { s with error := some "Failed to load the face detection model."
             , isLoading := false }

/-- The overlay draw phase of `detectFaces` (camera.tsx lines 107-123): for
each prediction, `strokeRect(x * scaleX, y * scaleY, width * scaleX,
height * scaleY)` followed by a radius-3 circle at
`(landmark[0] * scaleX, landmark[1] * scaleY)` for each landmark. -/
def renderOverlay (preds : List FaceDetection) (scaleX scaleY : ℚ) : List Shape :=
  preds.flatMap (fun f =>
    Shape.rect (f.topLeft.1 * scaleX) (f.topLeft.2 * scaleY)
        ((f.bottomRight.1 - f.topLeft.1) * scaleX)
        ((f.bottomRight.2 - f.topLeft.2) * scaleY)
      :: f.landmarks.map (fun l => Shape.circle (l.1 * scaleX) (l.2 * scaleY) 3))

/-- The continuation of `detectFaces` after `model.estimateFaces` resolves
successfully (camera.tsx lines 94-123): store the predictions wholesale, bump
the frame counter, record the debug text, clear the canvas and draw the
overlay with `scaleX = clientWidth / videoWidth`,
`scaleY = clientHeight / videoHeight` (lines 89-90). -/
def detectResolve (preds : List FaceDetection) (s : CState) : CState :=
  { s with predictions := preds
         , frameCount := s.frameCount + 1
         , debugInfo := .frameInfo (s.frameCount + 1) preds
         , canvas := renderOverlay preds (s.dispW / s.natW) (s.dispH / s.natH)
         , renders := s.renders + 1 }

/-- The catch arm of `detectFaces` (camera.tsx lines 125-129): the error is
swallowed, a user-visible message and diagnostic debug text are stored. -/
def detectFail (msg : String) (s : CState) : CState :=
  { s with error := some "Face detection failed. Please try again."
         , debugInfo := .detectError msg }

/-- One synchronous run of `runDetection` (camera.tsx lines 143-146) up to its
first suspension: it calls `detectFaces()` and awaits it.  If the model is
absent the `detectFaces` guard (line 71) fails, the promise resolves at once
and the `setTimeout` on line 145 fires the reschedule (`pendingT + 1`).  If
the video is not ready (line 79), `requestAnimationFrame(detectFaces)` is
scheduled, `detectFaces` returns, and the reschedule is also taken.  Otherwise
`estimateFaces` is entered and `runDetection` stays suspended at the `await`
(the reschedule happens only when the in-flight call settles). -/
def runDetectionBegin (ready : Bool) (s : CState) : CState :=
  if s.model.isSome then
    if ready then
      { s with flightT := s.flightT + 1, inferences := s.inferences + 1 }
    else
      { s with rafP := s.rafP + 1, pendingT := s.pendingT + 1 }
  else
    { s with pendingT := s.pendingT + 1 }

/-- Atomic events of the browser event loop for camera.tsx.  `ready` is the
value of the `video.readyState === HAVE_ENOUGH_DATA` test at the moment the
corresponding callback runs. -/
inductive Ev where
  | effectStart (ready : Bool)
  | timerFire (ready : Bool)
  | rafFire (ready : Bool)
  | completeT (preds : List FaceDetection)
  | failT (msg : String)
  | completeR (preds : List FaceDetection)
  | failR (msg : String)
  | stop
deriving DecidableEq

/-- Small-step semantics of the camera.tsx detection loop.

* `effectStart`: the `useEffect` body on lines 140-157 runs; it invokes
  `runDetection()` only when `isStreaming && model` (line 148).
* `timerFire`: a pending `setTimeout(runDetection, 100)` fires.
* `rafFire`: a pending `requestAnimationFrame(detectFaces)` fires; this call
  is not awaited by `runDetection`, so on the not-ready branch it only
  re-schedules itself and on the ready branch it enters `estimateFaces`.
* `completeT`/`failT`: the `estimateFaces` call of a `runDetection`-driven
  `detectFaces` settles; afterwards the `await` on line 144 resumes and
  line 145 schedules the next cycle (`pendingT + 1`) — unconditionally, with
  no check of `isStreaming`.
* `completeR`/`failR`: an rAF-driven `detectFaces` settles; nothing awaits it,
  so no reschedule occurs.
* `stop`: `stopCamera` runs; when it flips `isStreaming` the effect cleanup
  (lines 152-156) runs `clearTimeout(timeoutId)`, which cancels the latest
  scheduled timeout if it has not fired yet (`pendingT - 1`); an already-fired
  timeout — i.e. a cycle currently in flight — is not affected. -/
def stepC (s : CState) (e : Ev) : CState :=
  match e with
  | .effectStart ready =>
      if s.isStreaming && s.model.isSome then runDetectionBegin ready s else s
  | .timerFire ready =>
      if 0 < s.pendingT then
        runDetectionBegin ready { s with pendingT := s.pendingT - 1 }
      else s
  | .rafFire ready =>
      if 0 < s.rafP then
        let s' := { s with rafP := s.rafP - 1 }
        if s'.model.isSome then
          if ready then
            { s' with flightR := s'.flightR + 1, inferences := s'.inferences + 1 }
          else
            { s' with rafP := s'.rafP + 1 }
        else s'
      else s
  | .completeT preds =>
      if 0 < s.flightT then
        { detectResolve preds s with
            flightT := s.flightT - 1, pendingT := s.pendingT + 1 }
      else s
  | .failT msg =>
      if 0 < s.flightT then
        { detectFail msg s with
            flightT := s.flightT - 1, pendingT := s.pendingT + 1 }
      else s
  | .completeR preds =>
      if 0 < s.flightR then
        { detectResolve preds s with flightR := s.flightR - 1 }
      else s
  | .failR msg =>
      if 0 < s.flightR then
        { detectFail msg s with flightR := s.flightR - 1 }
      else s
  | .stop =>
      let s' := stopCamera s
      if s.srcObject && s.isStreaming then
        { s' with pendingT := s'.pendingT - 1 }
      else s'

/-- Run a sequence of event-loop events. -/
def runC (s : CState) (tr : List Ev) : CState :=
  tr.foldl stepC s

/-- Component state as mounted, before any model load or camera start. -/
def initCState : CState :=
  { isStreaming := false, error := none, model := none, isLoading := true
  , predictions := [], debugInfo := .empty, frameCount := 0
  , srcObject := false, tracks := []
  , dispW := 320, dispH := 240, natW := 640, natH := 480
  , pendingT := 0, flightT := 0, rafP := 0, flightR := 0
  , inferences := 0, renders := 0, canvas := [] }

/-- State right after a successful model load and camera start (the
`onloadedmetadata` handler has set `isStreaming`), before the detection
effect has run. -/
def startedState : CState :=
  { initCState with isStreaming := true, model := some ()
                  , isLoading := false, srcObject := true, tracks := [true] }

/-- The results panel of camera.tsx (lines 211-228) reads
`face.probability[0]` and `face.landmarks[0]` through `face.landmarks[5]`
unconditionally for every stored prediction.  An out-of-range JS index yields
`undefined`, and the subsequent component access throws — modelled here as
`none`. -/
def resultsPanelEntry (f : FaceDetection) : Option PanelEntry :=
  match f.probability.get? 0, f.landmarks.get? 0, f.landmarks.get? 1,
        f.landmarks.get? 2, f.landmarks.get? 3, f.landmarks.get? 4,
        f.landmarks.get? 5 with
  | some p, some l0, some l1, some l2, some l3, some l4, some l5 =>
      some ⟨p, f.topLeft, f.bottomRight, l0, l1, l2, l3, l4, l5⟩
  | _, _, _, _, _, _, _ => none

/-- Event kinds used by the sequentiality analysis of the camera.tsx loop:
timer fires with the video ready, settlement of the in-flight call, and stop.
(The `effectStart` that launches the loop, and the rAF path taken when the
video is not ready, are excluded.) -/
def seqEv : Ev → Bool
  | .timerFire true => true
  | .completeT _ => true
  | .failT _ => true
  | .stop => true
  | _ => false

/-- A state of the camera.tsx loop in which nothing is scheduled, nothing is
in flight, streaming is off and no stream is attached. -/
def Quiescent (s : CState) : Prop :=
  s.isStreaming = false ∧ s.srcObject = false ∧ s.pendingT = 0 ∧
  s.flightT = 0 ∧ s.flightR = 0 ∧ s.rafP = 0

/-- Invariant of a session whose model load failed: the model is absent and no
`detectFaces` invocation is suspended at `estimateFaces`. -/
def NoModelInv (s : CState) : Prop :=
  s.model = none ∧ s.flightT = 0 ∧ s.flightR = 0

/-- Sequentiality bound for the camera.tsx loop: no rAF path active and at
most one cycle pending-or-in-flight in total. -/
def SeqBound (s : CState) : Prop :=
  s.rafP = 0 ∧ s.flightR = 0 ∧ s.pendingT + s.flightT ≤ 1

end Camera

namespace Cropped

/-- `scaleFactor` (part_001 line 35): crop enlargement multiplier. -/
def scaleFactor : ℚ := 2

/-- `yScalerPos` (part_001 line 36): vertical offset multiplier. -/
def yScalerPos : ℚ := 85 / 100

/-- The crop-region arithmetic of `cropFace` (part_001 lines 99-111),
parameterised by the enlargement factor and vertical offset it reads from the
component constants: the offscreen canvas is `scaledWidth × scaledHeight` and
`drawImage` reads the source frame from `(scaledX, scaledY)`.  No branch
examines whether the region lies inside the source frame. -/
def cropRegion (sf yv : ℚ) (face : FaceDetection) : CropSpec :=
  let x := face.topLeft.1
  let y := face.topLeft.2
  let width := face.bottomRight.1 - face.topLeft.1
  let height := face.bottomRight.2 - face.topLeft.2
  let scaledWidth := width * sf
  let scaledHeight := height * sf
  { canvasW := scaledWidth
  , canvasH := scaledHeight
  , srcX := x - (scaledWidth - width) / 2
  , srcY := y * yv - (scaledHeight - height) / 2 }

/-- `cropFace` as called by `detectFaces` (part_001 line 167), with the
component constants `scaleFactor = 2` and `yScalerPos = 0.85`. -/
def cropFace (face : FaceDetection) : CropSpec :=
  cropRegion scaleFactor yScalerPos face

/-- The overlay draw phase of the cropped-face variant (part_001 lines
146-165): the rectangle's y-coordinate is `y * scaleY * yScalerPos`
(line 156) while its height is `height * scaleY` (line 158) and each landmark
circle is at `(landmark[0] * scaleX, landmark[1] * scaleY)` (line 163),
without the `yScalerPos` multiplier. -/
def renderOverlay1 (preds : List FaceDetection) (scaleX scaleY : ℚ) : List Shape :=
  preds.flatMap (fun f =>
    Shape.rect (f.topLeft.1 * scaleX) (f.topLeft.2 * scaleY * yScalerPos)
        ((f.bottomRight.1 - f.topLeft.1) * scaleX)
        ((f.bottomRight.2 - f.topLeft.2) * scaleY)
      :: f.landmarks.map (fun l => Shape.circle (l.1 * scaleX) (l.2 * scaleY) 3))

/-- React state and event-loop bookkeeping of the cropped-face
`CameraComponent` (part_001).  Fields as in `Camera.CState`, plus the second
model and the cropped-face list.  `inFlight` counts `detectFaces` invocations
suspended at an `await` inside the `try` block; in this variant `runDetection`
does not await `detectFaces`, so no separate timer/rAF flight split is needed
(settlement of a cycle never schedules anything). -/
structure State1 where
  isStreaming : Bool
  error : Option String
  blazefaceModel : Option Unit
  landmarkModel : Option Unit
  isLoading : Bool
  predictions : List FaceDetection
  croppedFaces : List CroppedFace
  debugInfo : DebugMsg
  srcObject : Bool
  tracks : List Bool
  dispW : ℚ
  dispH : ℚ
  natW : ℚ
  natH : ℚ
  pendingT : Nat
  inFlight : Nat
  rafP : Nat
  inferences : Nat
  renders : Nat
  canvas : List Shape
deriving DecidableEq

/-- `stopCamera` (part_001 lines 56-66): same guard as the primary variant,
additionally clears the cropped-face list. -/
def stopCamera1 (s : State1) : State1 :=
  if s.srcObject then
    { s with tracks := s.tracks.map (fun _ => false)
           , srcObject := false
           , isStreaming := false
           , predictions := []
           , croppedFaces := []
           , debugInfo := .empty }
  else s

/-- The continuation of `detectFaces` after `blazefaceModel.estimateFaces`
resolves (part_001 lines 136-175), taken as one atomic phase: store the
predictions, clear and redraw the overlay, build `newCroppedFaces` from
scratch — one `cropFace` + one `landmarkModel.estimateFaces(croppedCanvas)`
per detected face, in order — replace the cropped-face list wholesale and
record the debug text.  `oracle` gives the result of the secondary landmark
model on each cropped canvas. -/
def detectResolve1 (preds : List FaceDetection)
    (oracle : CropSpec → List MeshFace) (s : State1) : State1 :=
  { s with predictions := preds
         , canvas := renderOverlay1 preds (s.dispW / s.natW) (s.dispH / s.natH)
         , renders := s.renders + 1
         , croppedFaces := preds.map (fun f => ⟨cropFace f, oracle (cropFace f)⟩)
         , debugInfo := .detected preds.length preds }

/-- One synchronous run of `runDetection` (part_001 lines 195-198):
`detectFaces()` is called but NOT awaited, and `setTimeout(runDetection, 600)`
runs immediately afterwards — the next cycle is scheduled while the current
one is still in flight.  `detectFaces` itself: models absent → immediate
return; video not ready → schedule an rAF retry and return; otherwise suspend
at `estimateFaces`. -/
def runDetectionBegin1 (ready : Bool) (s : State1) : State1 :=
  let s' :=
    if s.blazefaceModel.isSome && s.landmarkModel.isSome then
      if ready then
        { s with inFlight := s.inFlight + 1, inferences := s.inferences + 1 }
      else
        { s with rafP := s.rafP + 1 }
    else s
  { s' with pendingT := s'.pendingT + 1 }

/-- Atomic events of the browser event loop for the cropped-face variant.
`cycleResolve` carries the blazeface output and the secondary-model oracle;
`cycleFail` models any throw inside the `try` block (lines 177-181). -/
inductive Ev1 where
  | effectStart (ready : Bool)
  | timerFire (ready : Bool)
  | rafFire (ready : Bool)
  | cycleResolve (preds : List FaceDetection) (oracle : CropSpec → List MeshFace)
  | cycleFail (msg : String)
  | stop

/-- Small-step semantics of the part_001 detection loop; see `Camera.stepC`
for the event conventions.  The effect guard (line 200) additionally requires
the landmark model; the cleanup (lines 204-208) clears the latest pending
timeout when `stopCamera` flips the streaming flag. -/
def step1 (s : State1) (e : Ev1) : State1 :=
  match e with
  | .effectStart ready =>
      if s.isStreaming && s.blazefaceModel.isSome && s.landmarkModel.isSome then
        runDetectionBegin1 ready s
      else s
  | .timerFire ready =>
      if 0 < s.pendingT then
        runDetectionBegin1 ready { s with pendingT := s.pendingT - 1 }
      else s
  | .rafFire ready =>
      if 0 < s.rafP then
        let s' := { s with rafP := s.rafP - 1 }
        if s'.blazefaceModel.isSome && s'.landmarkModel.isSome then
          if ready then
            { s' with inFlight := s'.inFlight + 1, inferences := s'.inferences + 1 }
          else
            { s' with rafP := s'.rafP + 1 }
        else s'
      else s
  | .cycleResolve preds oracle =>
      if 0 < s.inFlight then
        { detectResolve1 preds oracle s with inFlight := s.inFlight - 1 }
      else s
  | .cycleFail msg =>
      if 0 < s.inFlight then
        { s with error := some "Face detection failed. Please try again."
               , debugInfo := .detectError msg
               , inFlight := s.inFlight - 1 }
      else s
  | .stop =>
      let s' := stopCamera1 s
      if s.srcObject && s.isStreaming then
        { s' with pendingT := s'.pendingT - 1 }
      else s'

/-- Run a sequence of event-loop events in the cropped-face variant. -/
def run1 (s : State1) (tr : List Ev1) : State1 :=
  tr.foldl step1 s

/-- State of the cropped-face variant right after a successful load of both
models and a camera start, before the detection effect has run. -/
def started1 : State1 :=
  { isStreaming := true, error := none
  , blazefaceModel := some (), landmarkModel := some (), isLoading := false
  , predictions := [], croppedFaces := [], debugInfo := .empty
  , srcObject := true, tracks := [true]
  , dispW := 320, dispH := 240, natW := 640, natH := 480
  , pendingT := 0, inFlight := 0, rafP := 0
  , inferences := 0, renders := 0, canvas := [] }

end Cropped

/-- A sample detection with six landmarks, used as concrete input. -/
def exFace : FaceDetection :=
  { topLeft := (100, 100), bottomRight := (200, 200), probability := [1]
  , landmarks := [(120, 130), (180, 130), (150, 160), (150, 180),
                  (105, 140), (195, 140)] }

/-- A detection whose top edge lies above the frame (negative y), as blazeface
produces for faces at the frame border. -/
def negFace : FaceDetection :=
  { topLeft := (50, -100), bottomRight := (150, 0), probability := [1]
  , landmarks := [(60, -90)] }

/-- A detection carrying only five landmark points. -/
def shortFace : FaceDetection :=
  { topLeft := (0, 0), bottomRight := (10, 10), probability := [1]
  , landmarks := [(1, 1), (2, 2), (3, 3), (4, 4), (5, 5)] }

/-- A detection with positive coordinates used to witness the vertical-shift
inequality. -/
def posFace : FaceDetection :=
  { topLeft := (50, 100), bottomRight := (150, 200), probability := [1]
  , landmarks := [(60, 110)] }

/-- camera.tsx trace: the detection effect has launched the loop and the first
`detectFaces` is suspended at `estimateFaces`. -/
def c3s1 : Camera.CState := Camera.stepC Camera.startedState (.effectStart true)

/-- camera.tsx trace: the camera is stopped while that cycle is in flight. -/
def c3s2 : Camera.CState := Camera.stepC c3s1 .stop

/-- camera.tsx trace: the in-flight `estimateFaces` call settles after the
stop, its continuation stores and draws the result and line 145 schedules the
next `runDetection`. -/
def c3s3 : Camera.CState := Camera.stepC c3s2 (.completeT [exFace])

/-- part_001 trace reaching a stopped component whose prediction list was
repopulated by an in-flight cycle that settled after the stop. -/
def c4bad : Cropped.State1 :=
  Cropped.run1 Cropped.started1
    [.effectStart true, .stop, .cycleResolve [exFace] (fun _ => [])]

/-- camera.tsx state with one cycle in flight, for the inference-failure
claim. -/
def c5s : Camera.CState := Camera.stepC Camera.startedState (.effectStart true)

/-- part_001 state right after the detection effect launched the loop. -/
def c6a : Cropped.State1 := Cropped.run1 Cropped.started1 [.effectStart true]

/-- part_001 state after the immediately-scheduled timeout fires while the
first cycle is still in flight. -/
def c6b : Cropped.State1 :=
  Cropped.run1 Cropped.started1 [.effectStart true, .timerFire true]

/-- camera.tsx state with one cycle in flight, for the sequentiality claim. -/
def c6s : Camera.CState := Camera.stepC Camera.startedState (.effectStart true)

/-! ## Helper lemmas -/

/-- A quiescent camera.tsx state is a fixed point of every event. -/
theorem quiescent_step (s : Camera.CState) (e : Camera.Ev)
    (h : Camera.Quiescent s) : Camera.stepC s e = s := by
  obtain ⟨h1, h2, h3, h4, h5, h6⟩ := h
  cases e <;> simp [Camera.stepC, Camera.stopCamera, h1, h2, h3, h4, h5, h6]

/-- A quiescent camera.tsx state is a fixed point of every event trace. -/
theorem quiescent_run (s : Camera.CState) (tr : List Camera.Ev)
    (h : Camera.Quiescent s) : Camera.runC s tr = s := by
  induction tr with
  | nil => rfl
  | cons e tr ih =>
      show Camera.runC (Camera.stepC s e) tr = s
      rw [quiescent_step s e h]
      exact ih

/-- With the model absent and nothing in flight, every event preserves that
situation and performs no inference. -/
theorem noModel_step (s : Camera.CState) (e : Camera.Ev)
    (hm : s.model = none) (hft : s.flightT = 0) (hfr : s.flightR = 0) :
    (Camera.stepC s e).model = none ∧ (Camera.stepC s e).flightT = 0 ∧
    (Camera.stepC s e).flightR = 0 ∧
    (Camera.stepC s e).inferences = s.inferences := by
  cases e <;>
    simp only [Camera.stepC, Camera.stopCamera, Camera.runDetectionBegin,
      Camera.detectResolve, Camera.detectFail] <;>
    (try split_ifs) <;>
    simp_all

/-- With the model absent and nothing in flight, no trace of events ever
performs an inference. -/
theorem noModel_run (s : Camera.CState) (tr : List Camera.Ev)
    (hm : s.model = none) (hft : s.flightT = 0) (hfr : s.flightR = 0) :
    (Camera.runC s tr).inferences = s.inferences := by
  induction tr generalizing s with
  | nil => rfl
  | cons e tr ih =>
      obtain ⟨q1, q2, q3, q4⟩ := noModel_step s e hm hft hfr
      show (Camera.runC (Camera.stepC s e) tr).inferences = s.inferences
      rw [ih (Camera.stepC s e) q1 q2 q3, q4]

/-- The sequentiality bound of the camera.tsx loop is preserved by timer
fires with the video ready, settlement of the in-flight call, and stop. -/
theorem seqBound_step (s : Camera.CState) (e : Camera.Ev)
    (h : Camera.SeqBound s) (he : Camera.seqEv e = true) :
    Camera.SeqBound (Camera.stepC s e) := by
  obtain ⟨h1, h2, h3⟩ := h
  unfold Camera.SeqBound
  cases e with
  | effectStart r => simp [Camera.seqEv] at he
  | rafFire r => simp [Camera.seqEv] at he
  | completeR p => simp [Camera.seqEv] at he
  | failR m => simp [Camera.seqEv] at he
  | timerFire r =>
      cases r with
      | false => simp [Camera.seqEv] at he
      | true =>
          simp only [Camera.stepC]
          split_ifs with hpt
          · simp only [Camera.runDetectionBegin]
            split_ifs <;> refine ⟨by simp [h1], by simp [h2], ?_⟩ <;> simp <;> omega
          · exact ⟨h1, h2, h3⟩
  | completeT p =>
      simp only [Camera.stepC]
      split_ifs with hft
      · simp [Camera.detectResolve]
        refine ⟨h1, h2, ?_⟩
        omega
      · exact ⟨h1, h2, h3⟩
  | failT m =>
      simp only [Camera.stepC]
      split_ifs with hft
      · simp [Camera.detectFail]
        refine ⟨h1, h2, ?_⟩
        omega
      · exact ⟨h1, h2, h3⟩
  | stop =>
      simp only [Camera.stepC, Camera.stopCamera]
      split_ifs <;> refine ⟨by simp [h1], by simp [h2], ?_⟩ <;> (try simp) <;>
        omega

/-- The sequentiality bound holds along every trace of qualifying events. -/
theorem seqBound_run (s : Camera.CState) (tr : List Camera.Ev)
    (h : Camera.SeqBound s) (htr : ∀ e ∈ tr, Camera.seqEv e = true) :
    Camera.SeqBound (Camera.runC s tr) := by
  induction tr generalizing s with
  | nil => exact h
  | cons e tr ih =>
      show Camera.SeqBound (Camera.runC (Camera.stepC s e) tr)
      exact ih (Camera.stepC s e)
        (seqBound_step s e h (htr e (List.mem_cons_self e tr)))
        (fun x hx => htr x (List.mem_cons_of_mem e hx))

/-! ## Claims -/

/-- C1: the overlay renderer draws, for every detection, the bounding
rectangle at `(topLeft.x * scaleX, topLeft.y * scaleY)` with width
`(bottomRight.x - topLeft.x) * scaleX` and height
`(bottomRight.y - topLeft.y) * scaleY`, each axis scaled independently, and
the detection cycle invokes it with `scaleX = displayed/native width` and
`scaleY = displayed/native height`; for native 640×480 displayed at 320×240
and corners (100,100)-(200,200) the rectangle is at (50,50) with
width and height 50. -/
theorem C1_overlay_rect_scaling :
    (∀ (f : FaceDetection) (rest : List FaceDetection) (scaleX scaleY : ℚ),
      Camera.renderOverlay (f :: rest) scaleX scaleY
        = Shape.rect (f.topLeft.1 * scaleX) (f.topLeft.2 * scaleY)
            ((f.bottomRight.1 - f.topLeft.1) * scaleX)
            ((f.bottomRight.2 - f.topLeft.2) * scaleY)
          :: (f.landmarks.map (fun l => Shape.circle (l.1 * scaleX) (l.2 * scaleY) 3)
              ++ Camera.renderOverlay rest scaleX scaleY)) ∧
    (∀ (s : Camera.CState) (preds : List FaceDetection),
      (Camera.detectResolve preds s).canvas
        = Camera.renderOverlay preds (s.dispW / s.natW) (s.dispH / s.natH)) ∧
    Camera.renderOverlay
        [{ topLeft := (100, 100), bottomRight := (200, 200)
         , probability := [1], landmarks := [] }]
        (320 / 640) (240 / 480)
      = [Shape.rect 50 50 50 50] := by
  refine ⟨fun f rest sx sy => ?_, fun s preds => rfl, ?_⟩
  · simp [Camera.renderOverlay]
  · simp only [Camera.renderOverlay, List.flatMap_cons, List.flatMap_nil,
      List.map_nil, List.append_nil]
    norm_num

/-- C2: when model loading fails, the loading flag ends false, the error state
is set, the model stays `none`, and — because the detection effect (line 148)
requires `isStreaming && model` and `detectFaces` (line 71) requires the
model — no event-loop trace of the session ever performs an inference. -/
theorem C2_model_load_failure (s : Camera.CState) (tr : List Camera.Ev)
    (hm : s.model = none) (hft : s.flightT = 0) (hfr : s.flightR = 0) :
    (Camera.loadModel none s).isLoading = false ∧
    (Camera.loadModel none s).error
      = some "Failed to load the face detection model." ∧
    (Camera.loadModel none s).model = none ∧
    (Camera.runC (Camera.loadModel none s) tr).inferences = s.inferences := by
  refine ⟨rfl, rfl, hm, ?_⟩
  exact noModel_run (Camera.loadModel none s) tr hm hft hfr

/-- C2 witness: a failed load on the freshly mounted component, followed by a
start attempt and a timer fire, performs no inference. -/
theorem C2_model_load_failure_witness :
    (Camera.loadModel none Camera.initCState).isLoading = false ∧
    (Camera.runC (Camera.loadModel none Camera.initCState)
        [Camera.Ev.effectStart true, Camera.Ev.timerFire true]).inferences
      = Camera.initCState.inferences :=
  ⟨(C2_model_load_failure Camera.initCState
      [Camera.Ev.effectStart true, Camera.Ev.timerFire true] rfl rfl rfl).1,
   (C2_model_load_failure Camera.initCState
      [Camera.Ev.effectStart true, Camera.Ev.timerFire true] rfl rfl rfl).2.2.2⟩

/-- C3 counterexample: stop while a detection cycle is in flight.  After the
stop (`c3s2`) the component is cleared and nothing is pending, yet when the
in-flight `estimateFaces` call settles (`c3s3`) its continuation draws the
overlay (renders goes 0 to 1), repopulates the prediction list, and line 145
schedules a successor cycle (pendingT becomes 1) — further work after stop,
contradicting the claim. -/
theorem C3_counterexample :
    c3s2.isStreaming = false ∧ c3s2.srcObject = false ∧ c3s2.renders = 0 ∧
    c3s2.predictions = [] ∧ c3s2.pendingT = 0 ∧
    c3s3.renders = 1 ∧ c3s3.predictions = [exFace] ∧ c3s3.pendingT = 1 := by
  decide

/-- C3 amended: if at the moment of stopping no detection cycle is in flight
and no animation-frame retry is pending (at most the one scheduled timeout is
outstanding), then stopping cancels the pending cycle and the session is
inert: no later event changes the state at all, so no further cycle runs and
no further overlay draw occurs.  (When a cycle is in flight at stop, its
settlement still draws, stores its result and schedules a successor, as the
counterexample shows.) -/
theorem C3_stop_cancellation (s : Camera.CState) (tr : List Camera.Ev)
    (hsrc : s.srcObject = true) (hstr : s.isStreaming = true)
    (hp : s.pendingT ≤ 1) (hf : s.flightT = 0) (hfr : s.flightR = 0)
    (hraf : s.rafP = 0) :
    Camera.runC (Camera.stepC s .stop) tr = Camera.stepC s .stop := by
  apply quiescent_run
  unfold Camera.Quiescent
  simp [Camera.stepC, Camera.stopCamera, hsrc, hstr, hf, hfr, hraf]
  omega

/-- C3 witness: stopping from the started state (nothing in flight) leaves a
state unchanged by a later timer fire. -/
theorem C3_stop_cancellation_witness :
    Camera.runC (Camera.stepC Camera.startedState .stop)
        [Camera.Ev.timerFire true]
      = Camera.stepC Camera.startedState .stop :=
  C3_stop_cancellation Camera.startedState [Camera.Ev.timerFire true]
    rfl rfl (by decide) rfl rfl rfl

/-- C4 counterexample: `c4bad` is reached by starting the camera, stopping it
while the first cycle is in flight, and letting that cycle settle — the
settling cycle repopulates the prediction list after the stop.  In this state
`stopCamera` is a no-op (its guard `videoRef.current.srcObject` fails), so
after the stop operation returns the transient detection state is NOT
cleared, contradicting the claim's universal quantification over states. -/
theorem C4_counterexample :
    c4bad.srcObject = false ∧ c4bad.predictions = [exFace] ∧
    (Cropped.stopCamera1 c4bad).predictions = [exFace] ∧
    (Cropped.stopCamera1 c4bad).predictions ≠ [] := by
  decide

/-- C4 amended: whenever a stream is attached, `stopCamera` stops every media
track, detaches the stream, clears the streaming flag and resets predictions,
cropped faces and debug text; when no stream is attached it leaves the state
entirely unchanged (in particular, detection state repopulated by a cycle
that settled after a stop is not cleared). -/
theorem C4_stop_clears_state (s : Cropped.State1) :
    (s.srcObject = true →
      (∀ t ∈ (Cropped.stopCamera1 s).tracks, t = false) ∧
      (Cropped.stopCamera1 s).srcObject = false ∧
      (Cropped.stopCamera1 s).isStreaming = false ∧
      (Cropped.stopCamera1 s).predictions = [] ∧
      (Cropped.stopCamera1 s).croppedFaces = [] ∧
      (Cropped.stopCamera1 s).debugInfo = .empty) ∧
    (s.srcObject = false → Cropped.stopCamera1 s = s) := by
  constructor
  · intro h
    simp [Cropped.stopCamera1, h]
  · intro h
    simp [Cropped.stopCamera1, h]

/-- C4 witness: stopping the started cropped-face component clears the
transient state. -/
theorem C4_stop_clears_state_witness :
    (Cropped.stopCamera1 Cropped.started1).predictions = [] ∧
    (Cropped.stopCamera1 Cropped.started1).croppedFaces = [] ∧
    (Cropped.stopCamera1 Cropped.started1).isStreaming = false :=
  ⟨((C4_stop_clears_state Cropped.started1).1 rfl).2.2.2.1,
   ((C4_stop_clears_state Cropped.started1).1 rfl).2.2.2.2.1,
   ((C4_stop_clears_state Cropped.started1).1 rfl).2.2.1⟩

/-- C5: when the inference call of an in-flight cycle throws, the catch arm
stores the user-visible error message and the diagnostic debug text, the
failure does not escape (the step is an ordinary transition), and the
`setTimeout` on line 145 still schedules the next cycle. -/
theorem C5_inference_failure_resilient (s : Camera.CState) (msg : String)
    (hf : 0 < s.flightT) :
    (Camera.stepC s (.failT msg)).error
      = some "Face detection failed. Please try again." ∧
    (Camera.stepC s (.failT msg)).debugInfo = .detectError msg ∧
    (Camera.stepC s (.failT msg)).pendingT = s.pendingT + 1 ∧
    (Camera.stepC s (.failT msg)).flightT = s.flightT - 1 := by
  simp [Camera.stepC, Camera.detectFail, hf]

/-- C5 witness: a failing first cycle of the started component still schedules
a successor. -/
theorem C5_inference_failure_resilient_witness :
    (Camera.stepC c5s (.failT "err")).pendingT = c5s.pendingT + 1 ∧
    (Camera.stepC c5s (.failT "err")).error
      = some "Face detection failed. Please try again." :=
  ⟨(C5_inference_failure_resilient c5s "err" (by decide)).2.2.1,
   (C5_inference_failure_resilient c5s "err" (by decide)).1⟩

/-- C6 counterexample: in the cropped-face variant, `runDetection` (part_001
lines 195-198) schedules the next cycle with `setTimeout` immediately after
calling — without awaiting — `detectFaces()`.  Right after the loop starts
(`c6a`) a cycle is in flight AND its successor is already scheduled; when that
timeout fires (`c6b`) two detection cycles are in flight simultaneously, so
cycles do overlap and the claim's universal statement is false. -/
theorem C6_counterexample :
    c6a.inFlight = 1 ∧ c6a.pendingT = 1 ∧
    c6b.inFlight = 2 ∧ c6b.inferences = 2 := by
  decide

/-- C6 amended: in the camera.tsx variant the loop is sequential — starting
from a state with no rAF activity and at most one cycle pending-or-in-flight
(such as the state right after the loop launches), every trace of
ready-video timer fires, cycle settlements and stops keeps at most one cycle
pending-or-in-flight, i.e. a successor is scheduled only once the current
cycle has settled.  In the cropped-face variant the successor is scheduled at
cycle start instead, and cycles can overlap (see the counterexample). -/
theorem C6_sequential_cycles (s : Camera.CState) (tr : List Camera.Ev)
    (h : Camera.SeqBound s) (htr : ∀ e ∈ tr, Camera.seqEv e = true) :
    (Camera.runC s tr).rafP = 0 ∧ (Camera.runC s tr).flightR = 0 ∧
    (Camera.runC s tr).pendingT + (Camera.runC s tr).flightT ≤ 1 :=
  seqBound_run s tr h htr

/-- C6 witness: from the just-launched loop, a settle-then-fire trace keeps
the bound. -/
theorem C6_sequential_cycles_witness :
    (Camera.runC c6s [Camera.Ev.completeT [], Camera.Ev.timerFire true]).pendingT
      + (Camera.runC c6s [Camera.Ev.completeT [], Camera.Ev.timerFire true]).flightT
      ≤ 1 :=
  (C6_sequential_cycles c6s [Camera.Ev.completeT [], Camera.Ev.timerFire true]
    ⟨by decide, by decide, by decide⟩ (by decide)).2.2

/-- C7: a successful detection cycle of the cropped-face variant replaces the
stored per-frame structures wholesale: the stored predictions are exactly the
model output, the cropped-face list has exactly one entry per detected face
(each built from that face's crop and the secondary model's answer on it),
and neither depends on the previous state's stored values (the right-hand
sides never mention the prior lists); likewise the primary variant stores the
model output as-is. -/
theorem C7_wholesale_replacement :
    ∀ (s : Cropped.State1) (preds : List FaceDetection)
      (oracle : CropSpec → List MeshFace),
      (Cropped.detectResolve1 preds oracle s).predictions = preds ∧
      (Cropped.detectResolve1 preds oracle s).croppedFaces
        = preds.map (fun f => ⟨Cropped.cropFace f, oracle (Cropped.cropFace f)⟩) ∧
      (Cropped.detectResolve1 preds oracle s).croppedFaces.length
        = preds.length ∧
      ∀ (sC : Camera.CState), (Camera.detectResolve preds sC).predictions = preds :=
  fun s preds oracle =>
    ⟨rfl, rfl, by simp [Cropped.detectResolve1], fun sC => rfl⟩

/-- C8: for every enlargement factor `sf`, vertical offset `yv` and face, the
crop region is an offscreen raster of width `sf * w` and height `sf * h`
whose source x is `x - (sf*w - w)/2` — preserving the horizontal midpoint —
and whose source y is `y * yv - (sf*h - h)/2` (the vertical offset multiplies
only the y-coordinate); the component constants are 2 and 0.85, and no bounds
check is applied: the formulas hold for every input, and with the actual
constants a face at the frame corner yields negative source coordinates that
pass through unclamped. -/
theorem C8_crop_region :
    (∀ (sf yv : ℚ) (f : FaceDetection),
      (Cropped.cropRegion sf yv f).canvasW
        = sf * (f.bottomRight.1 - f.topLeft.1) ∧
      (Cropped.cropRegion sf yv f).canvasH
        = sf * (f.bottomRight.2 - f.topLeft.2) ∧
      (Cropped.cropRegion sf yv f).srcX
        = f.topLeft.1 - (sf * (f.bottomRight.1 - f.topLeft.1)
            - (f.bottomRight.1 - f.topLeft.1)) / 2 ∧
      (Cropped.cropRegion sf yv f).srcY
        = f.topLeft.2 * yv - (sf * (f.bottomRight.2 - f.topLeft.2)
            - (f.bottomRight.2 - f.topLeft.2)) / 2 ∧
      (Cropped.cropRegion sf yv f).srcX + (Cropped.cropRegion sf yv f).canvasW / 2
        = f.topLeft.1 + (f.bottomRight.1 - f.topLeft.1) / 2) ∧
    Cropped.scaleFactor = 2 ∧ Cropped.yScalerPos = 85 / 100 ∧
    (Cropped.cropFace shortFace).srcX = -5 ∧
    (Cropped.cropFace shortFace).srcY = -5 := by
  refine ⟨fun sf yv f => ⟨?_, ?_, ?_, ?_, ?_⟩, rfl, rfl, ?_, ?_⟩ <;>
    simp [Cropped.cropRegion, Cropped.cropFace, Cropped.scaleFactor,
      Cropped.yScalerPos, shortFace] <;>
    ring_nf

/-- C9 counterexample: blazeface can report a face whose top edge lies above
the frame (negative `topLeft.y`, as `negFace`).  The claim's conclusion that
the box is "shifted upward relative to its landmarks" fails there: with
`scaleY = 1` the rectangle's top is drawn at -85, which is BELOW the
landmark-transform value `topLeft.y * scaleY = -100`. -/
theorem C9_counterexample :
    negFace.topLeft.2 ≠ 0 ∧
    Cropped.renderOverlay1 [negFace] 1 1
      = [Shape.rect 50 (-85) 100 100, Shape.circle 60 (-90) 3] ∧
    ¬ ((-85 : ℚ) < negFace.topLeft.2 * 1) := by
  refine ⟨by decide, ?_, by norm_num [negFace]⟩
  simp only [Cropped.renderOverlay1, Cropped.yScalerPos, List.flatMap_cons,
    List.flatMap_nil, List.map_cons, List.map_nil, List.append_nil, negFace]
  norm_num

/-- C9 amended: in the cropped-face overlay renderer every drawn rectangle
has top y-coordinate `topLeft.y * scaleY * 0.85` and height
`(bottomRight.y - topLeft.y) * scaleY`, while every landmark circle is drawn
at `(lx * scaleX, ly * scaleY)` without the 0.85 multiplier; the two vertical
transforms differ whenever `topLeft.y * scaleY ≠ 0`, and the box is shifted
upward relative to its landmarks exactly in the ordinary case
`topLeft.y * scaleY > 0` (a face inside the frame at positive scale). -/
theorem C9_box_landmark_mismatch (f : FaceDetection)
    (rest : List FaceDetection) (sx sy : ℚ) :
    Cropped.renderOverlay1 (f :: rest) sx sy
      = Shape.rect (f.topLeft.1 * sx) (f.topLeft.2 * sy * Cropped.yScalerPos)
          ((f.bottomRight.1 - f.topLeft.1) * sx)
          ((f.bottomRight.2 - f.topLeft.2) * sy)
        :: (f.landmarks.map (fun l => Shape.circle (l.1 * sx) (l.2 * sy) 3)
            ++ Cropped.renderOverlay1 rest sx sy) ∧
    (0 < f.topLeft.2 * sy →
      f.topLeft.2 * sy * Cropped.yScalerPos < f.topLeft.2 * sy) ∧
    (f.topLeft.2 * sy ≠ 0 →
      f.topLeft.2 * sy * Cropped.yScalerPos ≠ f.topLeft.2 * sy) := by
  refine ⟨by simp [Cropped.renderOverlay1], ?_, ?_⟩
  · intro h
    have hy : Cropped.yScalerPos = 85 / 100 := rfl
    rw [hy]
    nlinarith [h]
  · intro hne heq
    apply hne
    have hy : Cropped.yScalerPos = 85 / 100 := rfl
    rw [hy] at heq
    nlinarith [heq]

/-- C9 witness: for a face with positive coordinates at scale 1/2 the box is
drawn strictly above the landmark transform of the same corner. -/
theorem C9_box_landmark_mismatch_witness :
    posFace.topLeft.2 * (1/2) * Cropped.yScalerPos < posFace.topLeft.2 * (1/2) :=
  (C9_box_landmark_mismatch posFace [] 1 (1/2)).2.1 (by norm_num [posFace])

/-- C10: the results panel reads landmark indices 0 through 5 (and
probability index 0) of every stored detection unconditionally; the access
succeeds exactly when the detection carries at least 6 landmark points and a
probability entry, the labels are assigned in source order, and a detection
with only five landmarks makes the access go out of range. -/
theorem C10_landmark_access :
    (∀ f : FaceDetection,
      (Camera.resultsPanelEntry f).isSome = true
        ↔ (6 ≤ f.landmarks.length ∧ 0 < f.probability.length)) ∧
    Camera.resultsPanelEntry shortFace = none ∧
    Camera.resultsPanelEntry exFace
      = some { prob := 1, topLeft := (100, 100), bottomRight := (200, 200)
             , rightEye := (120, 130), leftEye := (180, 130)
             , nose := (150, 160), mouth := (150, 180)
             , rightEar := (105, 140), leftEar := (195, 140) } := by
  refine ⟨fun f => ?_, by decide, by decide⟩
  rcases f with ⟨tl, br, prob, lms⟩
  rcases prob with _ | ⟨p, ps⟩ <;>
    rcases lms with _ | ⟨l0, _ | ⟨l1, _ | ⟨l2, _ | ⟨l3, _ | ⟨l4, _ | ⟨l5, rest⟩⟩⟩⟩⟩⟩ <;>
    simp [Camera.resultsPanelEntry]

/-- C10 witness: the six-landmark sample face renders successfully. -/
theorem C10_landmark_access_witness :
    (Camera.resultsPanelEntry exFace).isSome = true :=
  (C10_landmark_access.1 exFace).mpr ⟨by decide, by decide⟩
